import Mathlib

/-!
Shallow embedding of scripts/zimage_server.py: a small HTTP service wrapping an
external text-to-image pipeline.  Module-level globals become an explicit
`ServerState`; the external libraries (the pipeline, PNG encoding, base64,
disk writes, the clock) are abstracted into a `Pipeline` function and an `Env`
record of effectful primitives, each of which may fail with a Python exception
message.  Python floats that are only carried through (guidance_scale,
mock_delay) are modelled as rationals.  Request handlers are pure functions
from the state to a result, a list of file-write effects, and the state after
the call.
-/

namespace ZImageServer

/-- A PIL image: its dimensions together with its raw pixel bytes. -/
structure Image where
  width : Nat
  height : Nat
  data : List Nat
deriving DecidableEq, Repr

/-- A value produced by the external pipeline: either a PIL image or some
other object (the self-test's isinstance check distinguishes the two). -/
inductive PipeOutput where
  | pil (img : Image)
  | nonImage
deriving DecidableEq, Repr

/-- Request body of POST /generate, after pydantic decoding (defaults applied).
Field defaults mirror the pydantic model: width 1024, height 1024, steps 28,
guidance_scale 4.0. -/
structure GenerateRequest where
  prompt : String
  width : Int := 1024
  height : Int := 1024
  steps : Int := 28
  guidance_scale : Rat := 4
deriving DecidableEq, Repr

/-- Raw JSON body of POST /generate: optional fields are absent or present. -/
structure RawGenerateRequest where
  prompt : String
  width : Option Int
  height : Option Int
  steps : Option Int
  guidance_scale : Option Rat
deriving DecidableEq, Repr

/-- Pydantic decoding of the request body: absent optional fields take the
declared defaults. -/
def RawGenerateRequest.decode (r : RawGenerateRequest) : GenerateRequest :=
  { prompt := r.prompt
    width := r.width.getD 1024
    height := r.height.getD 1024
    steps := r.steps.getD 28
    guidance_scale := r.guidance_scale.getD 4 }

/-- Response body of POST /generate. -/
structure GenerateResponse where
  image : String
  mime_type : String := "image/png"
  file_path : String := ""
deriving DecidableEq, Repr

/-- Response body of GET /health. -/
structure HealthResponse where
  status : String
  model_loaded : Bool
  mock : Bool
deriving DecidableEq, Repr

/-- Result of a FastAPI handler: a value, or an HTTPException with a status
code and a detail message. -/
inductive HandlerResult (α : Type) where
  | ok (value : α)
  | httpError (status : Nat) (detail : String)
deriving DecidableEq, Repr

/-- The external Z-IMAGE pipeline, modelled as a function from the request
parameters and an optional fixed generator seed to either an exception
message or the list of images it produced (result.images). -/
def Pipeline : Type := GenerateRequest → Option Nat → Except String (List PipeOutput)

/-- External effectful primitives used by the handlers, each fallible with a
Python exception message: PNG-encoding an object to bytes (img.save to a
buffer), base64-encoding bytes to text, and saving an object to a disk path
(img.save to a file; some msg means the save raises, none means it
succeeds). -/
structure Env where
  pngEncode : PipeOutput → Except String (List Nat)
  b64encode : List Nat → String
  diskSaveErr : String → PipeOutput → Option String

/-- The module-level globals of the server process. -/
structure ServerState where
  pipe : Option Pipeline
  mock_mode : Bool
  mock_image_b64 : String
  mock_delay : Rat
  output_dir : String

/-- A wall-clock date and time, as read by datetime.now(). -/
structure DateTime where
  year : Nat
  month : Nat
  day : Nat
  hour : Nat
  minute : Nat
  second : Nat
deriving DecidableEq, Repr

/-- Zero-pad a number to two digits, as strftime %m %d %H %M %S do. -/
def pad2 (n : Nat) : String :=
  if n < 10 then "0" ++ toString n else toString n

/-- Zero-pad a number to four digits, as strftime %Y does. -/
def pad4 (n : Nat) : String :=
  if n < 10 then "000" ++ toString n
  else if n < 100 then "00" ++ toString n
  else if n < 1000 then "0" ++ toString n
  else toString n

/-- strftime with format %Y%m%d_%H%M%S. -/
def strftimeYmdHms (d : DateTime) : String :=
  pad4 d.year ++ pad2 d.month ++ pad2 d.day ++ "_" ++
    pad2 d.hour ++ pad2 d.minute ++ pad2 d.second

/-- Test whether a string starts with a slash (startswith of the one-character
separator). -/
def strHeadIsSlash (b : String) : Bool :=
  match b.data with
  | [] => false
  | c :: _ => c == '/'

/-- Test whether a string ends with a slash (endswith of the one-character
separator). -/
def strLastIsSlash (a : String) : Bool :=
  match a.data.getLast? with
  | some c => c == '/'
  | none => false

/-- os.path.join on POSIX for two components: an absolute second component
wins; joining onto the empty or slash-terminated first component inserts no
separator. -/
def osPathJoin (a b : String) : String :=
  if strHeadIsSlash b then b
  else if a = "" then b
  else if strLastIsSlash a then a ++ b
  else a ++ "/" ++ b

/-- Filename built for a saved image: {timestamp}_{width}x{height}.png with
the timestamp from strftime %Y%m%d_%H%M%S. -/
def genFilename (now : DateTime) (req : GenerateRequest) : String :=
  strftimeYmdHms now ++ "_" ++ toString req.width ++ "x" ++ toString req.height ++ ".png"

/-- GET /health handler: reads the globals, mutates nothing. -/
def health (s : ServerState) : HealthResponse × ServerState :=
  ({ status := "ok", model_loaded := s.pipe.isSome, mock := s.mock_mode }, s)

/-- Body of the try-block of the /generate handler: call the pipeline, take
the first image, PNG- and base64-encode it, and save it to a timestamped file
when an output directory is configured.  Returns the response together with
the list of file writes performed, or the message of the first exception
raised. -/
def genBody (env : Env) (now : DateTime) (s : ServerState) (p : Pipeline)
    (req : GenerateRequest) :
    Except String (GenerateResponse × List (String × PipeOutput)) :=
  match p req none with
  | .error e => .error e
  | .ok images =>
    match images with
    | [] => .error "list index out of range"
    | img :: _ =>
      match env.pngEncode img with
      | .error e => .error e
      | .ok bytes =>
        let b64 := env.b64encode bytes
        if s.output_dir ≠ "" then
          let saved_path := osPathJoin s.output_dir (genFilename now req)
          match env.diskSaveErr saved_path img with
          | some e => .error e
          | none =>
            .ok ({ image := b64, mime_type := "image/png", file_path := saved_path },
                 [(saved_path, img)])
        else
          .ok ({ image := b64, mime_type := "image/png", file_path := "" }, [])

/-- POST /generate handler.  Mock mode returns the cached placeholder; with no
pipeline loaded it raises a 503; otherwise it runs the generation body and
converts any exception into a 500 whose detail is the exception message.
Returns the handler result, the file writes performed, and the state after
the call. -/
def generate (env : Env) (now : DateTime) (s : ServerState) (req : GenerateRequest) :
    HandlerResult GenerateResponse × List (String × PipeOutput) × ServerState :=
  if s.mock_mode then
    (.ok { image := s.mock_image_b64, mime_type := "image/png", file_path := "" }, [], s)
  else
    match s.pipe with
    | none => (.httpError 503 "Model not loaded", [], s)
    | some p =>
      match genBody env now s p req with
      | .ok (resp, writes) => (.ok resp, writes, s)
      | .error e => (.httpError 500 e, [], s)

/-- The 64 by 64 cornflower-blue placeholder built by init_mock:
Image.new RGB (64, 64) with color (100, 149, 237). -/
def mockImage : PipeOutput :=
  .pil { width := 64, height := 64, data := (List.replicate (64 * 64) [100, 149, 237]).flatten }

/-- init_mock: set the mock flag and cache the base64 PNG encoding of the
placeholder image; an encoding failure crashes startup. -/
def init_mock (env : Env) (s : ServerState) : Except String ServerState :=
  match env.pngEncode mockImage with
  | .error e => .error e
  | .ok bytes =>
    .ok { s with mock_mode := true, mock_image_b64 := env.b64encode bytes }

/-- load_model: install the loaded pipeline into the global handle. -/
def load_model (s : ServerState) (p : Pipeline) : ServerState :=
  { s with pipe := some p }

/-- The fixed request issued by the self-test: prompt about a red circle,
512 by 512, 28 steps, guidance 4.0. -/
def selfTestRequest : GenerateRequest :=
  { prompt := "a red circle on a white background"
    width := 512
    height := 512
    steps := 28
    guidance_scale := 4 }

/-- run_self_test, reduced to its exit status: call the loaded pipeline with
the fixed request and seed 42; exit 1 when the call raises, when the image
list is empty (IndexError), when the first output is not a PIL Image, or when
its size is not 512 by 512, and also when the final save of the verified
image raises (uncaught exception); exit 0 otherwise. -/
def run_self_test (env : Env) (p : Pipeline) : Nat :=
  match p selfTestRequest (some 42) with
  | .error _ => 1
  | .ok [] => 1
  | .ok (out :: _) =>
    match out with
    | .nonImage => 1
    | .pil img =>
      if img.width != 512 || img.height != 512 then 1
      else
        match env.diskSaveErr "scripts/test_output.png" (.pil img) with
        | some _ => 1
        | none => 0

/-- One incoming HTTP request to the running server. -/
inductive Incoming where
  | healthReq
  | generateReq (now : DateTime) (req : GenerateRequest)

/-- Dispatch one incoming request and keep only the state after the call. -/
def handle (env : Env) (s : ServerState) : Incoming → ServerState
  | .healthReq => (health s).2
  | .generateReq now req => (generate env now s req).2.2

/-! Concrete fixtures used by witnesses and counterexamples. -/

/-- An environment in which every external primitive succeeds. -/
def envTriv : Env :=
  { pngEncode := fun _ => .ok []
    b64encode := fun _ => "b64"
    diskSaveErr := fun _ _ => none }

/-- An environment in which PNG encoding raises with message "boom". -/
def envEncodeFail : Env :=
  { pngEncode := fun _ => .error "boom"
    b64encode := fun _ => "b64"
    diskSaveErr := fun _ _ => none }

/-- A pipeline that always returns one 512 by 512 PIL image. -/
def pipeOk : Pipeline :=
  fun _ _ => .ok [.pil { width := 512, height := 512, data := [] }]

/-- A fixed wall-clock instant: 2026-01-02 03:04:05. -/
def dt0 : DateTime :=
  { year := 2026, month := 1, day := 2, hour := 3, minute := 4, second := 5 }

/-- A request with every optional field left at its default. -/
def req0 : GenerateRequest := { prompt := "hi" }

/-- A second, different request. -/
def req1 : GenerateRequest :=
  { prompt := "other", width := 2, height := 3, steps := 1, guidance_scale := 0 }

/-- Fresh server state: nothing loaded, mock off, no output directory. -/
def emptyState : ServerState :=
  { pipe := none, mock_mode := false, mock_image_b64 := "", mock_delay := 0, output_dir := "" }

/-- Mock-mode state with no pipeline and no output directory. -/
def mockState : ServerState :=
  { pipe := none, mock_mode := true, mock_image_b64 := "MOCKB64", mock_delay := 0,
    output_dir := "" }

/-- Mock-mode state with an output directory configured. -/
def mockStateOut : ServerState := { mockState with output_dir := "/out" }

/-- Mock-mode state as produced by init_mock from emptyState under envTriv. -/
def sMockInit : ServerState :=
  { pipe := none, mock_mode := true, mock_image_b64 := "b64", mock_delay := 0, output_dir := "" }

/-- Non-mock state with the pipeline loaded and no output directory. -/
def realState : ServerState := { emptyState with pipe := some pipeOk }

/-- Non-mock state with the pipeline loaded and an output directory. -/
def realStateOut : ServerState := { realState with output_dir := "/out" }

/-! Helper lemmas. -/

/-- Appending a non-empty string on the right yields a non-empty string. -/
theorem append_ne_empty_right (a b : String) (hb : b ≠ "") : a ++ b ≠ "" := by
  intro h
  apply hb
  have hlen := congrArg String.length h
  rw [String.length_append] at hlen
  have h0 : ("" : String).length = 0 := rfl
  rw [h0] at hlen
  have hb0 : b.length = 0 := by omega
  exact String.ext (List.length_eq_zero.mp hb0)

/-- The generated filename is never empty: it ends in ".png". -/
theorem genFilename_ne_empty (now : DateTime) (req : GenerateRequest) :
    genFilename now req ≠ "" := by
  unfold genFilename
  exact append_ne_empty_right _ _ (by decide)

/-- Joining any directory with a non-empty filename yields a non-empty path. -/
theorem osPathJoin_ne_empty (a b : String) (hb : b ≠ "") : osPathJoin a b ≠ "" := by
  unfold osPathJoin
  split_ifs
  · exact hb
  · exact hb
  · exact append_ne_empty_right _ _ hb
  · exact append_ne_empty_right _ _ hb

set_option maxHeartbeats 1000000 in
/-- Shape of every successful run of the generation body: the mime type is
the PNG constant, without an output directory nothing is written and the
file path is empty, and with an output directory the file path is the join
of the directory with the generated filename and exactly that path is
written. -/
theorem genBody_ok_shape (env : Env) (now : DateTime) (s : ServerState) (p : Pipeline)
    (req : GenerateRequest) (resp : GenerateResponse) (writes : List (String × PipeOutput))
    (h : genBody env now s p req = .ok (resp, writes)) :
    resp.mime_type = "image/png" ∧
    (s.output_dir = "" → resp.file_path = "" ∧ writes = []) ∧
    (s.output_dir ≠ "" →
      resp.file_path = osPathJoin s.output_dir (genFilename now req) ∧
      writes.map Prod.fst = [resp.file_path]) := by
  unfold genBody at h
  cases hp : p req none with
  | error e => rw [hp] at h; exact absurd h (by simp)
  | ok images =>
    rw [hp] at h
    dsimp only at h
    cases images with
    | nil => exact absurd h (by simp)
    | cons img rest =>
      dsimp only at h
      cases he : env.pngEncode img with
      | error e => rw [he] at h; dsimp only at h; exact absurd h (by simp)
      | ok bytes =>
        rw [he] at h
        dsimp only at h
        by_cases hd : s.output_dir = ""
        · simp only [hd, ne_eq, not_true_eq_false, if_false, Except.ok.injEq,
            Prod.mk.injEq] at h
          obtain ⟨h1, h2⟩ := h
          subst h1; subst h2
          exact ⟨rfl, fun _ => ⟨rfl, rfl⟩, fun hc => absurd hd hc⟩
        · simp only [hd, ne_eq, not_false_eq_true, if_true] at h
          cases hs : env.diskSaveErr (osPathJoin s.output_dir (genFilename now req)) img with
          | some e => rw [hs] at h; dsimp only at h; exact absurd h (by simp)
          | none =>
            rw [hs] at h
            dsimp only at h
            simp only [Except.ok.injEq, Prod.mk.injEq] at h
            obtain ⟨h1, h2⟩ := h
            subst h1; subst h2
            exact ⟨rfl, fun hc => absurd hc hd, fun _ => ⟨rfl, rfl⟩⟩

/-- Every branch of the generate handler returns the state unchanged. -/
theorem generate_state_eq (env : Env) (now : DateTime) (s : ServerState)
    (req : GenerateRequest) : (generate env now s req).2.2 = s := by
  unfold generate
  by_cases hm : s.mock_mode
  · simp [hm]
  · simp only [hm, Bool.false_eq_true, if_false]
    cases s.pipe with
    | none => rfl
    | some p =>
      dsimp only
      cases hb : genBody env now s p req with
      | error e => simp [hb]
      | ok rw0 => obtain ⟨r, w⟩ := rw0; simp [hb]

/-! Claim theorems. -/

/-- Claim C1 counterexample: with mock mode on and no pipeline loaded, POST
/generate returns the mock placeholder with status 200, not the 503 the
claim demands for every request with the pipeline handle absent. -/
theorem generate_unloaded_503_counterexample :
    mockState.pipe = none ∧
    (generate envTriv dt0 mockState req0).1 ≠
      HandlerResult.httpError 503 "Model not loaded" :=
  ⟨rfl, by decide⟩

/-- Claim C1 (amended): when mock mode is off and no pipeline is loaded,
POST /generate returns a 503 with detail "Model not loaded", writes no file,
and leaves the state unchanged. -/
theorem generate_unloaded_503 (env : Env) (now : DateTime) (s : ServerState)
    (req : GenerateRequest) (hm : s.mock_mode = false) (hp : s.pipe = none) :
    generate env now s req =
      (HandlerResult.httpError 503 "Model not loaded", [], s) := by
  unfold generate
  rw [hm, hp]
  simp

/-- Claim C1 witness: the amended statement at a concrete fresh state. -/
theorem generate_unloaded_503_witness :
    generate envTriv dt0 emptyState req0 =
      (HandlerResult.httpError 503 "Model not loaded", [], emptyState) :=
  generate_unloaded_503 envTriv dt0 emptyState req0 rfl rfl

/-- Claim C2 counterexample: in mock mode with an output directory
configured, a successful /generate response carries an empty file_path. -/
theorem file_path_outdir_counterexample :
    mockStateOut.output_dir = "/out" ∧
    (generate envTriv dt0 mockStateOut req0).1 =
      HandlerResult.ok { image := "MOCKB64", mime_type := "image/png", file_path := "" } :=
  ⟨rfl, rfl⟩

/-- Claim C2 (amended): for every successful non-mock /generate response, a
configured output directory yields a non-empty file_path and an unconfigured
one yields an empty file_path. -/
theorem file_path_outdir (env : Env) (now : DateTime) (s : ServerState)
    (req : GenerateRequest) (resp : GenerateResponse)
    (writes : List (String × PipeOutput)) (st : ServerState)
    (hm : s.mock_mode = false)
    (hgen : generate env now s req = (HandlerResult.ok resp, writes, st)) :
    (s.output_dir ≠ "" → resp.file_path ≠ "") ∧
    (s.output_dir = "" → resp.file_path = "") := by
  unfold generate at hgen
  rw [hm] at hgen
  simp only [Bool.false_eq_true, if_false] at hgen
  cases hp : s.pipe with
  | none => rw [hp] at hgen; exact absurd hgen (by simp)
  | some p =>
    rw [hp] at hgen
    dsimp only at hgen
    cases hb : genBody env now s p req with
    | error e => rw [hb] at hgen; dsimp only at hgen; exact absurd hgen (by simp)
    | ok rw0 =>
      obtain ⟨r, w⟩ := rw0
      rw [hb] at hgen
      dsimp only at hgen
      simp only [Prod.mk.injEq, HandlerResult.ok.injEq] at hgen
      obtain ⟨h1, h2, h3⟩ := hgen
      subst h1
      have hs := genBody_ok_shape env now s p req _ _ hb
      refine ⟨fun hd => ?_, fun hd => ?_⟩
      · rw [(hs.2.2 hd).1]
        exact osPathJoin_ne_empty _ _ (genFilename_ne_empty now req)
      · exact (hs.2.1 hd).1

/-- Claim C2 witness: the amended statement at a concrete loaded state with
an output directory. -/
theorem file_path_outdir_witness :
    (realStateOut.output_dir ≠ "" →
      GenerateResponse.file_path
        { image := "b64", mime_type := "image/png",
          file_path := "/out/20260102_030405_1024x1024.png" } ≠ "") ∧
    (realStateOut.output_dir = "" →
      GenerateResponse.file_path
        { image := "b64", mime_type := "image/png",
          file_path := "/out/20260102_030405_1024x1024.png" } = "") :=
  file_path_outdir envTriv dt0 realStateOut req0
    { image := "b64", mime_type := "image/png",
      file_path := "/out/20260102_030405_1024x1024.png" }
    [("/out/20260102_030405_1024x1024.png",
      PipeOutput.pil { width := 512, height := 512, data := [] })]
    realStateOut rfl rfl

/-- Claim C3: in mock mode every /generate request returns exactly the
base64 placeholder cached by init_mock at startup, so any two requests, for
any parameters, receive identical image bytes. -/
theorem mock_fixed_image (env0 env env2 : Env) (now now2 : DateTime)
    (s0 s : ServerState) (req req2 : GenerateRequest)
    (hinit : init_mock env0 s0 = Except.ok s) :
    (generate env now s req).1 =
      HandlerResult.ok
        { image := s.mock_image_b64, mime_type := "image/png", file_path := "" } ∧
    (generate env now s req).1 = (generate env2 now2 s req2).1 := by
  have hmock : s.mock_mode = true := by
    unfold init_mock at hinit
    cases he : env0.pngEncode mockImage with
    | error e => rw [he] at hinit; exact absurd hinit (by simp)
    | ok bytes =>
      rw [he] at hinit
      dsimp only at hinit
      simp only [Except.ok.injEq] at hinit
      rw [← hinit]
  constructor
  · unfold generate; rw [if_pos hmock]
  · unfold generate; rw [if_pos hmock, if_pos hmock]

/-- Claim C3 witness: the state produced by init_mock from a fresh state
serves the cached placeholder to two different requests. -/
theorem mock_fixed_image_witness :
    (generate envTriv dt0 sMockInit req0).1 =
      HandlerResult.ok
        { image := sMockInit.mock_image_b64, mime_type := "image/png", file_path := "" } ∧
    (generate envTriv dt0 sMockInit req0).1 =
      (generate envEncodeFail dt0 sMockInit req1).1 :=
  mock_fixed_image envTriv envTriv envEncodeFail dt0 dt0 emptyState sMockInit req0 req1 rfl

/-- Claim C4: in non-mock mode with the pipeline loaded, every exception
raised by the generation body surfaces as a 500 whose detail is the
exception message, and every non-exceptional run returns its response;
nothing else can happen. -/
theorem generate_catches_exceptions (env : Env) (now : DateTime) (s : ServerState)
    (p : Pipeline) (req : GenerateRequest) (hm : s.mock_mode = false)
    (hp : s.pipe = some p) :
    (∀ e, genBody env now s p req = Except.error e →
      generate env now s req = (HandlerResult.httpError 500 e, [], s)) ∧
    (∀ resp writes, genBody env now s p req = Except.ok (resp, writes) →
      generate env now s req = (HandlerResult.ok resp, writes, s)) := by
  constructor
  · intro e he
    unfold generate
    rw [hm, hp]
    simp [he]
  · intro resp writes ho
    unfold generate
    rw [hm, hp]
    simp [ho]

/-- Claim C4 witness: a PNG-encoding failure with message "boom" surfaces as
a 500 with detail "boom". -/
theorem generate_catches_exceptions_witness :
    generate envEncodeFail dt0 realState req0 =
      (HandlerResult.httpError 500 "boom", [], realState) :=
  (generate_catches_exceptions envEncodeFail dt0 realState pipeOk req0 rfl rfl).1 "boom" rfl

/-- Claim C5: when disk writes succeed, the self-test exits 0 exactly when
the pipeline's first output for the fixed seeded 512x512 request is a PIL
image of size exactly 512x512, and in every other case it exits 1. -/
theorem run_self_test_exit_iff (env : Env) (p : Pipeline)
    (hsave : ∀ o, env.diskSaveErr "scripts/test_output.png" o = none) :
    (run_self_test env p = 0 ↔
      ∃ img rest, p selfTestRequest (some 42) = Except.ok (PipeOutput.pil img :: rest) ∧
        img.width = 512 ∧ img.height = 512) ∧
    (run_self_test env p = 0 ∨ run_self_test env p = 1) := by
  unfold run_self_test
  cases hp : p selfTestRequest (some 42) with
  | error e => simp [hp]
  | ok outs =>
    cases outs with
    | nil => simp [hp]
    | cons out rest =>
      cases out with
      | nonImage => simp [hp]
      | pil img =>
        dsimp only
        rw [hsave]
        by_cases hw : img.width = 512
        · by_cases hh : img.height = 512
          · simp only [hp, hw, hh, bne_self_eq_false, Bool.or_self, Bool.false_eq_true,
              if_false, Except.ok.injEq, List.cons.injEq, PipeOutput.pil.injEq]
            constructor
            · exact ⟨fun _ => ⟨img, rest, ⟨rfl, rfl⟩, hw, hh⟩, fun _ => trivial⟩
            · exact Or.inl trivial
          · simp [hp, hh, bne_iff_ne]
        · simp [hp, hw, bne_iff_ne]

/-- Claim C5 witness: a pipeline producing one 512x512 PIL image makes the
self-test exit 0. -/
theorem run_self_test_exit_iff_witness :
    run_self_test envTriv pipeOk = 0 :=
  ((run_self_test_exit_iff envTriv pipeOk (fun _ => rfl)).1).mpr
    ⟨{ width := 512, height := 512, data := [] }, [], rfl, rfl, rfl⟩

/-- Claim C6: GET /health returns exactly status ok, whether the pipeline
handle is present, and the mock flag, leaves the state unchanged, and with
no pipeline loaded it reports model_loaded false. -/
theorem health_spec (s : ServerState) :
    health s = ({ status := "ok", model_loaded := s.pipe.isSome, mock := s.mock_mode }, s) ∧
    (health { s with pipe := none }).1.model_loaded = false :=
  ⟨rfl, rfl⟩

/-- Claim C6 witness: the health response at a concrete mock state with no
pipeline loaded. -/
theorem health_spec_witness :
    health mockState =
      ({ status := "ok", model_loaded := mockState.pipe.isSome,
         mock := mockState.mock_mode }, mockState) ∧
    (health { mockState with pipe := none }).1.model_loaded = false :=
  health_spec mockState

/-- Claim C7: a request that omits every optional field decodes to the
defaults width 1024, height 1024, steps 28, guidance_scale 4.0, and every
successful /generate response, mock or real, carries mime_type
"image/png". -/
theorem request_defaults_and_mime (pr : String) (env : Env) (now : DateTime)
    (s : ServerState) (req : GenerateRequest) :
    RawGenerateRequest.decode
        { prompt := pr, width := none, height := none, steps := none,
          guidance_scale := none } =
      { prompt := pr, width := 1024, height := 1024, steps := 28, guidance_scale := 4 } ∧
    (∀ resp, (generate env now s req).1 = HandlerResult.ok resp →
      resp.mime_type = "image/png") := by
  refine ⟨rfl, fun resp h => ?_⟩
  unfold generate at h
  by_cases hm : s.mock_mode
  · rw [if_pos hm] at h
    dsimp only at h
    simp only [HandlerResult.ok.injEq] at h
    rw [← h]
  · rw [if_neg hm] at h
    cases hp : s.pipe with
    | none => rw [hp] at h; exact absurd h (by simp)
    | some p =>
      rw [hp] at h
      dsimp only at h
      cases hb : genBody env now s p req with
      | error e => rw [hb] at h; dsimp only at h; exact absurd h (by simp)
      | ok rw0 =>
        obtain ⟨r, w⟩ := rw0
        rw [hb] at h
        dsimp only at h
        simp only [HandlerResult.ok.injEq] at h
        rw [← h]
        exact (genBody_ok_shape env now s p req r w hb).1

/-- Claim C7 witness: the defaults at a concrete prompt and the mime type of
a concrete mock response. -/
theorem request_defaults_and_mime_witness :
    RawGenerateRequest.decode
        { prompt := "x", width := none, height := none, steps := none,
          guidance_scale := none } =
      { prompt := "x", width := 1024, height := 1024, steps := 28, guidance_scale := 4 } ∧
    GenerateResponse.mime_type
        { image := "MOCKB64", mime_type := "image/png", file_path := "" } = "image/png" :=
  ⟨(request_defaults_and_mime "x" envTriv dt0 mockState req0).1,
   (request_defaults_and_mime "x" envTriv dt0 mockState req0).2
     { image := "MOCKB64", mime_type := "image/png", file_path := "" } rfl⟩

/-- Claim C8: every successful non-mock generation with an output directory
configured writes exactly one file, whose path is the output directory
joined with timestamp_widthxheight.png, the timestamp being the current
time in strftime %Y%m%d_%H%M%S format, and reports that path as
file_path. -/
theorem saved_path_format (env : Env) (now : DateTime) (s : ServerState)
    (req : GenerateRequest) (resp : GenerateResponse)
    (writes : List (String × PipeOutput)) (st : ServerState)
    (hm : s.mock_mode = false) (hout : s.output_dir ≠ "")
    (hgen : generate env now s req = (HandlerResult.ok resp, writes, st)) :
    resp.file_path =
      osPathJoin s.output_dir
        (strftimeYmdHms now ++ "_" ++ toString req.width ++ "x" ++
          toString req.height ++ ".png") ∧
    writes.map Prod.fst = [resp.file_path] := by
  unfold generate at hgen
  rw [hm] at hgen
  simp only [Bool.false_eq_true, if_false] at hgen
  cases hp : s.pipe with
  | none => rw [hp] at hgen; exact absurd hgen (by simp)
  | some p =>
    rw [hp] at hgen
    dsimp only at hgen
    cases hb : genBody env now s p req with
    | error e => rw [hb] at hgen; dsimp only at hgen; exact absurd hgen (by simp)
    | ok rw0 =>
      obtain ⟨r, w⟩ := rw0
      rw [hb] at hgen
      dsimp only at hgen
      simp only [Prod.mk.injEq, HandlerResult.ok.injEq] at hgen
      obtain ⟨h1, h2, h3⟩ := hgen
      subst h1; subst h2
      have hs := genBody_ok_shape env now s p req _ _ hb
      exact ⟨(hs.2.2 hout).1, (hs.2.2 hout).2⟩

/-- Claim C8 witness: at the fixed clock instant 2026-01-02 03:04:05 with
output directory /out and default dimensions, the saved path is
/out/20260102_030405_1024x1024.png. -/
theorem saved_path_format_witness :
    GenerateResponse.file_path
        { image := "b64", mime_type := "image/png",
          file_path := "/out/20260102_030405_1024x1024.png" } =
      osPathJoin realStateOut.output_dir
        (strftimeYmdHms dt0 ++ "_" ++ toString req0.width ++ "x" ++
          toString req0.height ++ ".png") ∧
    ([("/out/20260102_030405_1024x1024.png",
        PipeOutput.pil { width := 512, height := 512, data := [] })].map Prod.fst) =
      [GenerateResponse.file_path
        { image := "b64", mime_type := "image/png",
          file_path := "/out/20260102_030405_1024x1024.png" }] :=
  saved_path_format envTriv dt0 realStateOut req0
    { image := "b64", mime_type := "image/png",
      file_path := "/out/20260102_030405_1024x1024.png" }
    [("/out/20260102_030405_1024x1024.png",
      PipeOutput.pil { width := 512, height := 512, data := [] })]
    realStateOut rfl (by decide) rfl

/-- Claim C9: request handlers leave the process-wide state unchanged: any
sequence of health and generate calls returns the initial state; load_model
only installs the pipeline handle, and init_mock never touches it. -/
theorem handlers_preserve_state (env : Env) (s s0 : ServerState) (p : Pipeline)
    (reqs : List Incoming) :
    List.foldl (handle env) s reqs = s ∧
    load_model s0 p = { s0 with pipe := some p } ∧
    (∀ env0 s1, init_mock env0 s0 = Except.ok s1 → s1.pipe = s0.pipe) := by
  refine ⟨?_, rfl, ?_⟩
  · induction reqs with
    | nil => rfl
    | cons r rs ih =>
      rw [List.foldl_cons]
      have hr : handle env s r = s := by
        cases r with
        | healthReq => rfl
        | generateReq now req => exact generate_state_eq env now s req
      rw [hr]
      exact ih
  · intro env0 s1 h
    unfold init_mock at h
    cases he : env0.pngEncode mockImage with
    | error e => rw [he] at h; exact absurd h (by simp)
    | ok bytes =>
      rw [he] at h
      dsimp only at h
      simp only [Except.ok.injEq] at h
      rw [← h]

/-- Claim C9 witness: a concrete sequence of three requests leaves a
concrete state unchanged. -/
theorem handlers_preserve_state_witness :
    List.foldl (handle envTriv) mockStateOut
      [Incoming.healthReq, Incoming.generateReq dt0 req0, Incoming.healthReq] =
      mockStateOut :=
  (handlers_preserve_state envTriv mockStateOut emptyState pipeOk
    [Incoming.healthReq, Incoming.generateReq dt0 req0, Incoming.healthReq]).1

/-- Claim C10: in mock mode /generate returns an empty file_path and writes
no file, whatever the output directory configuration. -/
theorem mock_no_file_write (env : Env) (now : DateTime) (s : ServerState)
    (req : GenerateRequest) (hm : s.mock_mode = true) :
    generate env now s req =
      (HandlerResult.ok
        { image := s.mock_image_b64, mime_type := "image/png", file_path := "" },
       [], s) := by
  unfold generate
  rw [if_pos hm]

/-- Claim C10 witness: in mock mode with an output directory configured,
the response has an empty file_path and the write list is empty. -/
theorem mock_no_file_write_witness :
    generate envTriv dt0 mockStateOut req0 =
      (HandlerResult.ok
        { image := mockStateOut.mock_image_b64, mime_type := "image/png", file_path := "" },
       [], mockStateOut) :=
  mock_no_file_write envTriv dt0 mockStateOut req0 rfl

end ZImageServer
